import Mathlib

/-!
Verification of the i18n subsystem of the `serhatsoysal/website` repository:
the translation resolver `t` (src/src/contexts/LanguageContext.js) and the
locale lifecycle (src/src/hooks/useLanguage.js), together with the bundled
translation catalog (the `translations` data module).

Modelling conventions:
* Runtime values are leaf strings, nested objects, numbers (reached as
  boxed-string lengths or host-function arities) and opaque host values
  (inherited methods, constructors, prototype objects) — `Tr`.  The
  catalog data itself contains only strings and objects, no arrays.
* JavaScript truthiness: `undefined`, the empty string and the number 0
  are falsy; objects, host values, non-empty strings and non-zero numbers
  are truthy (`jsFalsy`).
* Property access is modelled in two layers.  `getProp` is the own-data
  fragment (own keys of catalog objects only); it backs the lemmas whose
  hypotheses select resolved catalog values.  `getPropJs` is the refined
  ECMAScript model: own keys first, then inherited `Object.prototype`
  properties on objects; boxed `length` (in UTF-16 code units), canonical
  in-range indices and inherited `String.prototype`/`Object.prototype`
  methods on string primitives; `Number.prototype` methods on numbers.
  It is three-valued: `some (some v)` and `some none` mean the program
  definitely yields `v` / `undefined`; `none` means the access leaves the
  modelled fragment (properties of host values beyond tabulated arities,
  or lone-surrogate string slices), so no theorem asserts anything there.
* Optional chaining `x?.[k]` yields `undefined` when `x` is `undefined`.
* `localStorage.getItem` returns `Option String` (`none` models `null`).
-/

namespace Website

/-- A JavaScript value arising during translation resolution: a leaf
string or a nested object (association list preserving source order) from
the catalog data, a number (a boxed string length or a host-function
arity), or an opaque truthy host value (an inherited method, constructor
or prototype object, labelled by the property name it was reached by). -/
inductive Tr where
  | str : String → Tr
  | obj : List (String × Tr) → Tr
  | num : Nat → Tr
  | hostVal : String → Tr

/-- First-match association-list lookup, modelling JavaScript object
property access `o[k]` (the data has no duplicate keys). -/
def assocLookup {α : Type} (k : String) : List (String × α) → Option α
  | [] => none
  | (k', v) :: rest => if k = k' then some v else assocLookup k rest

/-- Own-data fragment of property access on a value: own keys of catalog
objects only.  Boxed-string and inherited-prototype access is modelled by
the refined `getPropJs` below; lemmas built on `getProp` are used only
under hypotheses that select own-key catalog resolutions. -/
def getProp (v : Tr) (k : String) : Option Tr :=
  match v with
  | Tr.str _ => none
  | Tr.obj kvs => assocLookup k kvs
  | Tr.num _ => none
  | Tr.hostVal _ => none

/-- Optional chaining `translation?.[k]`. -/
def optChain (o : Option Tr) (k : String) : Option Tr :=
  match o with
  | none => none
  | some v => getProp v k

/-- The traversal loop `for (const k of keys) translation = translation?.[k]`. -/
def lookupPath (o : Option Tr) (segs : List String) : Option Tr :=
  segs.foldl optChain o

/-- JavaScript truthiness of the running `translation` value:
`!translation` is true exactly for `undefined`, the empty string and the
number 0; objects and host values are always truthy. -/
def jsFalsy (o : Option Tr) : Bool :=
  match o with
  | none => true
  | some (Tr.str s) => s == ""
  | some (Tr.obj _) => false
  | some (Tr.num n) => n == 0
  | some (Tr.hostVal _) => false

/-- Helper for `String.prototype.split(sep)` with a one-character
separator, accumulating the current segment in reverse. -/
def splitChAux (sep : Char) : List Char → List Char → List String
  | [], acc => [String.mk acc.reverse]
  | c :: cs, acc =>
    if c = sep then String.mk acc.reverse :: splitChAux sep cs []
    else splitChAux sep cs (c :: acc)

/-- JavaScript `s.split(sep)` for a single-character separator. -/
def jsSplit (sep : Char) (s : String) : List String :=
  splitChAux sep s.data []

/-- Split `key.split('.')` from the resolver. -/
def jsSplitDot (key : String) : List String :=
  jsSplit '.' key

/-- The opening-brace character. -/
def lbrace : Char := Char.ofNat 123

/-- The closing-brace character. -/
def rbrace : Char := Char.ofNat 125

/-- JavaScript regex word character `\w`: ASCII letters, digits, underscore. -/
def isWordChar (c : Char) : Bool :=
  c.isAlphanum || c = '_'

/-- Maximal run of word characters at the head of the list, and the rest. -/
def takeWord : List Char → List Char × List Char
  | [] => ([], [])
  | c :: cs =>
    if isWordChar c then
      let p := takeWord cs
      (c :: p.1, p.2)
    else ([], c :: cs)

/-- The literal text of a placeholder token with name `w`. -/
def placeholderLit (w : List Char) : List Char :=
  lbrace :: lbrace :: (w ++ [rbrace, rbrace])

/-- Try to match the regex `\{\{(\w+)\}\}` at the head of the character
list; on success return the captured name and the characters after the
match. -/
def tryPlaceholder (cs : List Char) : Option (List Char × List Char) :=
  match cs with
  | c1 :: c2 :: rest =>
    if c1 = lbrace ∧ c2 = lbrace then
      let p := takeWord rest
      match p.1, p.2 with
      | [], _ => none
      | w, d1 :: d2 :: r2 =>
        if d1 = rbrace ∧ d2 = rbrace then some (w, r2) else none
      | _, _ => none
    else none
  | _ => none

/-- The replacement callback `(match, param) => params[param] || match`:
JavaScript `||` falls back to `m` when the looked-up value is absent or
falsy (the empty string). -/
def jsOrStr (o : Option String) (m : String) : String :=
  match o with
  | some s => if s = "" then m else s
  | none => m

/-- The scan of `translation.replace(/\{\{(\w+)\}\}/g, cb)`: at each
position, replace a placeholder match and continue after it, otherwise
copy one character.  The `fuel` argument (instantiated with the input
length) makes the recursion structural; each step consumes at least one
character, so the fuel is never exhausted on the intended instance. -/
def replaceGo (params : List (String × String)) : Nat → List Char → List Char
  | 0, cs => cs
  | _ + 1, [] => []
  | fuel + 1, c :: rest =>
    match tryPlaceholder (c :: rest) with
    | some (w, r) =>
      (jsOrStr (assocLookup (String.mk w) params) (String.mk (placeholderLit w))).data
        ++ replaceGo params fuel r
    | none => c :: replaceGo params fuel rest

/-- Interpolation `translation.replace(/\{\{(\w+)\}\}/g, (m, p) => params[p] || m)`. -/
def interpolate (params : List (String × String)) (s : String) : String :=
  String.mk (replaceGo params s.data.length s.data)

/-- The `en` entry of the bundled translation catalog (the `translations` data module). -/
def enCatalog : Tr :=
  .obj [
    ("nav", .obj [
      ("home", .str "Home"),
      ("about", .str "About"),
      ("projects", .str "Projects"),
      ("blog", .str "Blog"),
      ("contact", .str "Contact")]),
    ("home", .obj [
      ("hero", .obj [
        ("greeting", .str "Hi, I\x27m"),
        ("name", .str "Serhat Soysal"),
        ("title", .str "Full-Stack Software Engineer"),
        ("subtitle", .str "Crafting scalable systems & smart interfaces"),
        ("description", .str "I build robust, scalable applications using cutting-edge technologies. Passionate about clean code, system design, and creating exceptional user experiences."),
        ("cta", .obj [
          ("viewWork", .str "View My Work"),
          ("getInTouch", .str "Get in Touch")])]),
      ("services", .obj [
        ("title", .str "Professional Services"),
        ("subtitle", .str "Delivering enterprise-grade solutions with cutting-edge technologies and industry best practices."),
        ("fullStack", .obj [
          ("title", .str "Full-Stack Development"),
          ("description", .str "End-to-end application development with React, TypeScript, Spring Boot, and Node.js. Delivering scalable solutions with modern architectures, clean code practices, and comprehensive testing strategies.")]),
        ("cloudNative", .obj [
          ("title", .str "Cloud-Native Solutions"),
          ("description", .str "Architecting and deploying highly scalable applications on AWS, Azure, and GCP. Expert in containerization with Docker, orchestration with Kubernetes, and serverless architectures.")]),
        ("systemDesign", .obj [
          ("title", .str "System Architecture"),
          ("description", .str "Designing resilient, high-performance systems using microservices, event-driven architectures, and distributed computing patterns. Focus on scalability, reliability, and maintainability.")]),
        ("devops", .obj [
          ("title", .str "DevOps & CI/CD"),
          ("description", .str "Implementing automated deployment pipelines, infrastructure as code, and monitoring solutions. Expertise in Jenkins, GitLab CI, GitHub Actions, and cloud-native deployment strategies.")]),
        ("database", .obj [
          ("title", .str "Database Solutions"),
          ("description", .str "Designing and optimizing database architectures for performance and scalability. Expert in PostgreSQL, MongoDB, Redis, and database migration strategies for enterprise applications.")]),
        ("apiDesign", .obj [
          ("title", .str "API Design & Integration"),
          ("description", .str "Creating RESTful APIs, GraphQL endpoints, and real-time communication systems. Focus on security, performance, and developer experience with comprehensive documentation.")]),
        ("performance", .obj [
          ("title", .str "Performance Optimization"),
          ("description", .str "Analyzing and optimizing application performance, reducing load times, and implementing caching strategies. Expert in profiling, monitoring, and capacity planning.")]),
        ("security", .obj [
          ("title", .str "Security & Compliance"),
          ("description", .str "Implementing security best practices, authentication systems, and compliance frameworks. Experience with OAuth, JWT, data encryption, and security auditing.")]),
        ("consulting", .obj [
          ("title", .str "Technical Leadership"),
          ("description", .str "Providing strategic technical guidance, code reviews, and mentorship. Helping teams adopt best practices, improve code quality, and deliver high-quality software solutions.")])]),
      ("stats", .obj [
        ("projects", .str "Projects Completed"),
        ("experience", .str "Years Experience"),
        ("technologies", .str "Technologies Used"),
        ("clients", .str "Happy Clients")])]),
    ("about", .obj [
      ("title", .str "About Me"),
      ("subtitle", .str "Full-Stack Software Engineer with a passion for innovation"),
      ("intro", .str "I\x27m a passionate full-stack software engineer with expertise in building scalable, high-performance applications. My journey in software development has been driven by curiosity and a desire to solve complex problems through elegant code."),
      ("background", .obj [
        ("title", .str "Background"),
        ("content", .str "With years of experience in software development, I\x27ve worked on various projects ranging from microservices architectures to modern web applications. I believe in writing clean, maintainable code and following industry best practices.")]),
      ("skills", .obj [
        ("title", .str "Technical Skills"),
        ("backend", .str "Backend Development"),
        ("frontend", .str "Frontend Development"),
        ("cloud", .str "Cloud & DevOps"),
        ("database", .str "Database Management")]),
      ("approach", .obj [
        ("title", .str "My Approach"),
        ("content", .str "I believe in continuous learning and staying updated with the latest technologies. My approach combines technical excellence with user-centered design to create solutions that not only work well but also provide exceptional user experiences.")])]),
    ("projects", .obj [
      ("title", .str "My Projects"),
      ("subtitle", .str "A collection of applications and solutions I\x27ve built using modern technologies"),
      ("featured", .str "Featured Projects"),
      ("allProjects", .str "All Projects"),
      ("viewDemo", .str "View Demo"),
      ("viewCode", .str "View Code"),
      ("techStack", .str "Tech Stack"),
      ("comingSoon", .str "Coming Soon")]),
    ("blog", .obj [
      ("title", .str "Latest Articles"),
      ("subtitle", .str "Thoughts on software development, technology, and best practices"),
      ("readMore", .str "Read More"),
      ("readTime", .str "min read"),
      ("publishedOn", .str "Published on"),
      ("tags", .str "Tags"),
      ("backToBlog", .str "Back to Blog"),
      ("noArticles", .str "No articles found."),
      ("searchPlaceholder", .str "Search articles...")]),
    ("contact", .obj [
      ("title", .str "Get in Touch"),
      ("subtitle", .str "Let\x27s discuss your project or just say hello"),
      ("form", .obj [
        ("name", .str "Full Name"),
        ("email", .str "Email Address"),
        ("subject", .str "Subject"),
        ("message", .str "Message"),
        ("send", .str "Send Message"),
        ("sending", .str "Sending..."),
        ("placeholder", .obj [
          ("name", .str "Your full name"),
          ("email", .str "your@email.com"),
          ("subject", .str "Project discussion"),
          ("message", .str "Tell me about your project...")])]),
      ("info", .obj [
        ("title", .str "Contact Information"),
        ("email", .str "Email"),
        ("response", .str "I typically respond within 24 hours"),
        ("social", .str "Social Media"),
        ("connect", .str "Let\x27s connect on professional networks")])]),
    ("footer", .obj [
      ("description", .str "Full-stack Software Engineer specializing in enterprise-grade solutions with React, TypeScript, Spring Boot, and cloud-native architectures. Passionate about clean code, system design, and delivering exceptional user experiences through scalable, maintainable applications."),
      ("quickLinks", .str "Quick Links"),
      ("contact", .str "Contact"),
      ("copyright", .str "© \x7b\x7byear\x7d\x7d Serhat Soysal. All rights reserved."),
      ("builtWith", .str "Built with React & Tailwind CSS")]),
    ("common", .obj [
      ("loading", .str "Loading..."),
      ("error", .str "Something went wrong"),
      ("notFound", .str "Page not found"),
      ("backHome", .str "Back to Home"),
      ("learnMore", .str "Learn More"),
      ("viewAll", .str "View All"),
      ("close", .str "Close"),
      ("open", .str "Open"),
      ("toggleTheme", .str "Toggle theme"),
      ("darkMode", .str "Dark Mode"),
      ("lightMode", .str "Light Mode")])]

/-- The `tr` entry of the bundled translation catalog (the `translations` data module). -/
def trCatalog : Tr :=
  .obj [
    ("nav", .obj [
      ("home", .str "Ana Sayfa"),
      ("about", .str "Hakkımda"),
      ("projects", .str "Projeler"),
      ("blog", .str "Blog"),
      ("contact", .str "İletişim")]),
    ("home", .obj [
      ("hero", .obj [
        ("greeting", .str "Merhaba, Ben"),
        ("name", .str "Serhat Soysal"),
        ("title", .str "Full-Stack Yazılım Mühendisi"),
        ("subtitle", .str "Ölçeklenebilir sistemler ve akıllı arayüzler geliştiriyorum"),
        ("description", .str "Cutting-edge teknolojileri kullanarak sağlam, ölçeklenebilir uygulamalar geliştiriyorum. Temiz kod, sistem tasarımı ve olağanüstü kullanıcı deneyimleri yaratma konusunda tutkulum."),
        ("cta", .obj [
          ("viewWork", .str "Çalışmalarımı Gör"),
          ("getInTouch", .str "İletişime Geç")])]),
      ("services", .obj [
        ("title", .str "Profesyonel Hizmetler"),
        ("subtitle", .str "Cutting-edge teknolojiler ve endüstri en iyi uygulamaları ile kurumsal düzeyde çözümler sunuyorum."),
        ("fullStack", .obj [
          ("title", .str "Full-Stack Geliştirme"),
          ("description", .str "React, TypeScript, Spring Boot ve Node.js ile uçtan uca uygulama geliştirme. Modern mimariler, temiz kod uygulamaları ve kapsamlı test stratejileri ile ölçeklenebilir çözümler sunuyorum.")]),
        ("cloudNative", .obj [
          ("title", .str "Bulut-Tabanlı Çözümler"),
          ("description", .str "AWS, Azure ve GCP üzerinde yüksek ölçeklenebilir uygulamalar tasarlıyor ve dağıtıyorum. Docker ile konteynerleştirme, Kubernetes ile orkestrasyon ve serverless mimarilerde uzmanım.")]),
        ("systemDesign", .obj [
          ("title", .str "Sistem Mimarisi"),
          ("description", .str "Mikroservisler, event-driven mimariler ve dağıtık bilişim desenleri kullanarak dayanıklı, yüksek performanslı sistemler tasarlıyorum. Ölçeklenebilirlik, güvenilirlik ve sürdürülebilirlik odaklı.")]),
        ("devops", .obj [
          ("title", .str "DevOps & CI/CD"),
          ("description", .str "Otomatik deployment pipeline\x27ları, infrastructure as code ve monitoring çözümleri uyguluyorum. Jenkins, GitLab CI, GitHub Actions ve cloud-native deployment stratejilerinde uzmanım.")]),
        ("database", .obj [
          ("title", .str "Veritabanı Çözümleri"),
          ("description", .str "Performans ve ölçeklenebilirlik için veritabanı mimarileri tasarlıyor ve optimize ediyorum. PostgreSQL, MongoDB, Redis ve kurumsal uygulamalar için veritabanı migrasyon stratejilerinde uzmanım.")]),
        ("apiDesign", .obj [
          ("title", .str "API Tasarımı & Entegrasyon"),
          ("description", .str "RESTful API\x27ler, GraphQL endpoint\x27leri ve gerçek zamanlı iletişim sistemleri oluşturuyorum. Kapsamlı dokümantasyonla güvenlik, performans ve developer experience odaklı.")]),
        ("performance", .obj [
          ("title", .str "Performans Optimizasyonu"),
          ("description", .str "Uygulama performansını analiz ediyor ve optimize ediyorum, yükleme sürelerini azaltıyor ve önbellekleme stratejileri uyguluyorum. Profiling, monitoring ve kapasite planlamasında uzmanım.")]),
        ("security", .obj [
          ("title", .str "Güvenlik & Compliance"),
          ("description", .str "Güvenlik en iyi uygulamaları, kimlik doğrulama sistemleri ve compliance çerçeveleri uyguluyorum. OAuth, JWT, veri şifreleme ve güvenlik denetimi konularında deneyimliyim.")]),
        ("consulting", .obj [
          ("title", .str "Teknik Liderlik"),
          ("description", .str "Stratejik teknik rehberlik, kod incelemeleri ve mentörlük sağlıyorum. Ekiplerin en iyi uygulamaları benimsemeleri, kod kalitesini artırmaları ve yüksek kaliteli yazılım çözümleri sunmalarına yardımcı oluyorum.")])]),
      ("stats", .obj [
        ("projects", .str "Tamamlanan Proje"),
        ("experience", .str "Yıl Deneyim"),
        ("technologies", .str "Kullanılan Teknoloji"),
        ("clients", .str "Mutlu Müşteri")])]),
    ("about", .obj [
      ("title", .str "Hakkımda"),
      ("subtitle", .str "İnovasyon tutkusu olan Full-Stack Yazılım Mühendisi"),
      ("intro", .str "Ölçeklenebilir, yüksek performanslı uygulamalar geliştirme konusunda uzmanlığa sahip tutkulu bir full-stack yazılım mühendisiyim. Yazılım geliştirmedeki yolculuğum merak ve karmaşık sorunları zarif kodlarla çözme arzusuyla şekillenmiştir."),
      ("background", .obj [
        ("title", .str "Geçmiş"),
        ("content", .str "Yıllarca yazılım geliştirme deneyimi ile mikroservis mimarilerinden modern web uygulamalarına kadar çeşitli projelerde çalıştım. Temiz, sürdürülebilir kod yazmaya ve endüstri en iyi uygulamalarını takip etmeye inanıyorum.")]),
      ("skills", .obj [
        ("title", .str "Teknik Yetenekler"),
        ("backend", .str "Backend Geliştirme"),
        ("frontend", .str "Frontend Geliştirme"),
        ("cloud", .str "Bulut & DevOps"),
        ("database", .str "Veritabanı Yönetimi")]),
      ("approach", .obj [
        ("title", .str "Yaklaşımım"),
        ("content", .str "Sürekli öğrenmeye ve en son teknolojilerle güncel kalmaya inanıyorum. Yaklaşımım teknik mükemmelliği kullanıcı odaklı tasarımla birleştirerek sadece iyi çalışmakla kalmayıp aynı zamanda olağanüstü kullanıcı deneyimleri sağlayan çözümler yaratmaktır.")])]),
    ("projects", .obj [
      ("title", .str "Projelerim"),
      ("subtitle", .str "Modern teknolojiler kullanarak geliştirdiğim uygulama ve çözümler koleksiyonu"),
      ("featured", .str "Öne Çıkan Projeler"),
      ("allProjects", .str "Tüm Projeler"),
      ("viewDemo", .str "Demoyu Gör"),
      ("viewCode", .str "Kodu Gör"),
      ("techStack", .str "Teknoloji Yığını"),
      ("comingSoon", .str "Yakında")]),
    ("blog", .obj [
      ("title", .str "Son Makaleler"),
      ("subtitle", .str "Yazılım geliştirme, teknoloji ve en iyi uygulamalar üzerine düşünceler"),
      ("readMore", .str "Devamını Oku"),
      ("readTime", .str "dakika okuma"),
      ("publishedOn", .str "Yayınlanma tarihi"),
      ("tags", .str "Etiketler"),
      ("backToBlog", .str "Bloga Dön"),
      ("noArticles", .str "Makale bulunamadı."),
      ("searchPlaceholder", .str "Makale ara...")]),
    ("contact", .obj [
      ("title", .str "İletişime Geçin"),
      ("subtitle", .str "Projenizi tartışalım veya sadece merhaba deyin"),
      ("form", .obj [
        ("name", .str "Ad Soyad"),
        ("email", .str "E-posta Adresi"),
        ("subject", .str "Konu"),
        ("message", .str "Mesaj"),
        ("send", .str "Mesaj Gönder"),
        ("sending", .str "Gönderiliyor..."),
        ("placeholder", .obj [
          ("name", .str "Adınız soyadınız"),
          ("email", .str "ornek@email.com"),
          ("subject", .str "Proje görüşmesi"),
          ("message", .str "Projeniz hakkında bana anlatın...")])]),
      ("info", .obj [
        ("title", .str "İletişim Bilgileri"),
        ("email", .str "E-posta"),
        ("response", .str "Genellikle 24 saat içinde yanıt veririm"),
        ("social", .str "Sosyal Medya"),
        ("connect", .str "Profesyonel ağlarda bağlantı kuralım")])]),
    ("footer", .obj [
      ("description", .str "React, TypeScript, Spring Boot ve bulut-native mimariler ile kurumsal düzeyde çözümler konusunda uzmanlaşmış Full-Stack Yazılım Mühendisi. Temiz kod, sistem tasarımı ve ölçeklenebilir, sürdürülebilir uygulamalar aracılığıyla olağanüstü kullanıcı deneyimleri sunma konusunda tutkulu."),
      ("quickLinks", .str "Hızlı Bağlantılar"),
      ("contact", .str "İletişim"),
      ("copyright", .str "© \x7b\x7byear\x7d\x7d Serhat Soysal. Tüm hakları saklıdır."),
      ("builtWith", .str "React & Tailwind CSS ile geliştirilmiştir")]),
    ("common", .obj [
      ("loading", .str "Yükleniyor..."),
      ("error", .str "Bir şeyler ters gitti"),
      ("notFound", .str "Sayfa bulunamadı"),
      ("backHome", .str "Ana Sayfaya Dön"),
      ("learnMore", .str "Daha Fazla Bilgi"),
      ("viewAll", .str "Tümünü Gör"),
      ("close", .str "Kapat"),
      ("open", .str "Aç"),
      ("toggleTheme", .str "Temayı değiştir"),
      ("darkMode", .str "Karanlık Mod"),
      ("lightMode", .str "Açık Mod")])]

/-- The `ar` entry of the bundled translation catalog (the `translations` data module). -/
def arCatalog : Tr :=
  .obj [
    ("nav", .obj [
      ("home", .str "الرئيسية"),
      ("about", .str "نبذة عني"),
      ("projects", .str "المشاريع"),
      ("blog", .str "المدونة"),
      ("contact", .str "اتصل بي")]),
    ("home", .obj [
      ("hero", .obj [
        ("greeting", .str "مرحباً، أنا"),
        ("name", .str "سرحات سويسال"),
        ("title", .str "مهندس برمجيات متكامل"),
        ("subtitle", .str "صناعة أنظمة قابلة للتوسع وواجهات ذكية"),
        ("description", .str "أقوم ببناء تطبيقات قوية وقابلة للتوسع باستخدام التقنيات المتطورة. شغوف بالكود النظيف وتصميم الأنظمة وإنشاء تجارب مستخدم استثنائية."),
        ("cta", .obj [
          ("viewWork", .str "اطلع على أعمالي"),
          ("getInTouch", .str "تواصل معي")])]),
      ("services", .obj [
        ("title", .str "الخدمات المهنية"),
        ("subtitle", .str "تقديم حلول على مستوى المؤسسات بأحدث التقنيات وأفضل الممارسات الصناعية."),
        ("fullStack", .obj [
          ("title", .str "التطوير المتكامل"),
          ("description", .str "تطوير تطبيقات شاملة باستخدام React، TypeScript، Spring Boot، و Node.js. تقديم حلول قابلة للتوسع مع المعمارية الحديثة، ممارسات الكود النظيف، واستراتيجيات الاختبار الشاملة.")]),
        ("cloudNative", .obj [
          ("title", .str "الحلول السحابية"),
          ("description", .str "تصميم ونشر تطبيقات عالية التوسع على AWS، Azure، و GCP. خبير في الحاويات مع Docker، التنسيق مع Kubernetes، والمعماريات بدون خادم.")]),
        ("systemDesign", .obj [
          ("title", .str "هندسة الأنظمة"),
          ("description", .str "تصميم أنظمة مرنة وعالية الأداء باستخدام الخدمات الصغيرة والمعماريات المدفوعة بالأحداث وأنماط الحوسبة الموزعة. التركيز على قابلية التوسع والموثوقية والصيانة.")]),
        ("devops", .obj [
          ("title", .str "DevOps & CI/CD"),
          ("description", .str "تنفيذ خطوط أنابيب النشر الآلية، والبنية التحتية كرمز، وحلول المراقبة. الخبرة في Jenkins، GitLab CI، GitHub Actions، واستراتيجيات النشر السحابية الأصلية.")]),
        ("database", .obj [
          ("title", .str "حلول قواعد البيانات"),
          ("description", .str "تصميم وتحسين معماريات قواعد البيانات للأداء وقابلية التوسع. خبير في PostgreSQL، MongoDB، Redis، واستراتيجيات ترحيل قواعد البيانات للتطبيقات المؤسسية.")]),
        ("apiDesign", .obj [
          ("title", .str "تصميم API والتكامل"),
          ("description", .str "إنشاء RESTful APIs، نقاط GraphQL، وأنظمة التواصل في الوقت الفعلي. التركيز على الأمان والأداء وتجربة المطور مع التوثيق الشامل.")]),
        ("performance", .obj [
          ("title", .str "تحسين الأداء"),
          ("description", .str "تحليل وتحسين أداء التطبيقات، تقليل أوقات التحميل، وتنفيذ استراتيجيات التخزين المؤقت. خبير في التشخيص والمراقبة وتخطيط السعة.")]),
        ("security", .obj [
          ("title", .str "الأمان والامتثال"),
          ("description", .str "تنفيذ أفضل ممارسات الأمان، أنظمة المصادقة، وإطارات الامتثال. خبرة في OAuth، JWT، تشفير البيانات، ومراجعة الأمان.")]),
        ("consulting", .obj [
          ("title", .str "القيادة التقنية"),
          ("description", .str "تقديم التوجيه التقني الاستراتيجي، مراجعات الكود، والإرشاد. مساعدة الفرق على تبني أفضل الممارسات، تحسين جودة الكود، وتقديم حلول برمجية عالية الجودة.")])]),
      ("stats", .obj [
        ("projects", .str "المشاريع المكتملة"),
        ("experience", .str "سنوات الخبرة"),
        ("technologies", .str "التقنيات المستخدمة"),
        ("clients", .str "العملاء السعداء")])]),
    ("about", .obj [
      ("title", .str "نبذة عني"),
      ("subtitle", .str "مهندس برمجيات متكامل شغوف بالابتكار"),
      ("intro", .str "أنا مهندس برمجيات متكامل شغوف بخبرة في بناء تطبيقات قابلة للتوسع وعالية الأداء. رحلتي في تطوير البرمجيات مدفوعة بالفضول والرغبة في حل المشاكل المعقدة من خلال الكود الأنيق."),
      ("background", .obj [
        ("title", .str "الخلفية"),
        ("content", .str "مع سنوات من الخبرة في تطوير البرمجيات، عملت على مشاريع متنوعة تتراوح من بنى الخدمات الصغيرة إلى تطبيقات الويب الحديثة. أؤمن بكتابة كود نظيف وقابل للصيانة واتباع أفضل الممارسات في الصناعة.")]),
      ("skills", .obj [
        ("title", .str "المهارات التقنية"),
        ("backend", .str "تطوير الخلفية"),
        ("frontend", .str "تطوير الواجهة"),
        ("cloud", .str "السحابة والعمليات"),
        ("database", .str "إدارة قواعد البيانات")]),
      ("approach", .obj [
        ("title", .str "منهجي"),
        ("content", .str "أؤمن بالتعلم المستمر والبقاء محدثاً مع أحدث التقنيات. منهجي يجمع بين التميز التقني والتصميم المتمحور حول المستخدم لإنشاء حلول لا تعمل بشكل جيد فحسب، بل تقدم أيضاً تجارب مستخدم استثنائية.")])]),
    ("projects", .obj [
      ("title", .str "مشاريعي"),
      ("subtitle", .str "مجموعة من التطبيقات والحلول التي بنيتها باستخدام التقنيات الحديثة"),
      ("featured", .str "المشاريع المميزة"),
      ("allProjects", .str "جميع المشاريع"),
      ("viewDemo", .str "عرض تجريبي"),
      ("viewCode", .str "عرض الكود"),
      ("techStack", .str "مجموعة التقنيات"),
      ("comingSoon", .str "قريباً")]),
    ("blog", .obj [
      ("title", .str "آخر المقالات"),
      ("subtitle", .str "أفكار حول تطوير البرمجيات والتكنولوجيا وأفضل الممارسات"),
      ("readMore", .str "اقرأ المزيد"),
      ("readTime", .str "دقيقة قراءة"),
      ("publishedOn", .str "نُشر في"),
      ("tags", .str "العلامات"),
      ("backToBlog", .str "العودة للمدونة"),
      ("noArticles", .str "لم يتم العثور على مقالات."),
      ("searchPlaceholder", .str "البحث في المقالات...")]),
    ("contact", .obj [
      ("title", .str "تواصل معي"),
      ("subtitle", .str "دعنا نناقش مشروعك أو فقط قل مرحباً"),
      ("form", .obj [
        ("name", .str "الاسم الكامل"),
        ("email", .str "عنوان البريد الإلكتروني"),
        ("subject", .str "الموضوع"),
        ("message", .str "الرسالة"),
        ("send", .str "إرسال الرسالة"),
        ("sending", .str "جارٍ الإرسال..."),
        ("placeholder", .obj [
          ("name", .str "اسمك الكامل"),
          ("email", .str "your@email.com"),
          ("subject", .str "مناقشة مشروع"),
          ("message", .str "أخبرني عن مشروعك...")])]),
      ("info", .obj [
        ("title", .str "معلومات الاتصال"),
        ("email", .str "البريد الإلكتروني"),
        ("response", .str "عادة ما أرد خلال 24 ساعة"),
        ("social", .str "وسائل التواصل الاجتماعي"),
        ("connect", .str "دعنا نتواصل على الشبكات المهنية")])]),
    ("footer", .obj [
      ("description", .str "مهندس برمجيات متكامل متخصص في الحلول على مستوى المؤسسات باستخدام React، TypeScript، Spring Boot، والهندسة المعمارية السحابية الأصلية. شغوف بالكود النظيف، تصميم الأنظمة، وتقديم تجارب مستخدم استثنائية من خلال التطبيقات القابلة للتوسع والقابلة للصيانة."),
      ("quickLinks", .str "روابط سريعة"),
      ("contact", .str "اتصل بي"),
      ("copyright", .str "© \x7b\x7byear\x7d\x7d سرحات سويسال. جميع الحقوق محفوظة."),
      ("builtWith", .str "مبني باستخدام React و Tailwind CSS")]),
    ("common", .obj [
      ("loading", .str "جارٍ التحميل..."),
      ("error", .str "حدث خطأ ما"),
      ("notFound", .str "الصفحة غير موجودة"),
      ("backHome", .str "العودة للرئيسية"),
      ("learnMore", .str "تعلم المزيد"),
      ("viewAll", .str "عرض الكل"),
      ("close", .str "إغلاق"),
      ("open", .str "فتح"),
      ("toggleTheme", .str "تبديل المظهر"),
      ("darkMode", .str "المظهر الداكن"),
      ("lightMode", .str "المظهر الفاتح")])]

/-- The `it` entry of the bundled translation catalog (the `translations` data module). -/
def itCatalog : Tr :=
  .obj [
    ("nav", .obj [
      ("home", .str "Home"),
      ("about", .str "Chi Sono"),
      ("projects", .str "Progetti"),
      ("blog", .str "Blog"),
      ("contact", .str "Contatti")]),
    ("home", .obj [
      ("hero", .obj [
        ("greeting", .str "Ciao, sono"),
        ("name", .str "Serhat Soysal"),
        ("title", .str "Ingegnere Software Full-Stack"),
        ("subtitle", .str "Creo sistemi scalabili e interfacce intelligenti"),
        ("description", .str "Sviluppo applicazioni robuste e scalabili utilizzando tecnologie all\x27avanguardia. Appassionato di codice pulito, progettazione di sistemi e creazione di esperienze utente eccezionali."),
        ("cta", .obj [
          ("viewWork", .str "Vedi i Miei Lavori"),
          ("getInTouch", .str "Contattami")])]),
      ("services", .obj [
        ("title", .str "Cosa Faccio"),
        ("subtitle", .str "Sviluppo applicazioni robuste e scalabili utilizzando tecnologie moderne e best practices."),
        ("fullStack", .obj [
          ("title", .str "Sviluppo Full-Stack"),
          ("description", .str "Creazione di applicazioni end-to-end con React, Spring Boot e framework moderni.")]),
        ("cloudNative", .obj [
          ("title", .str "Soluzioni Cloud-Native"),
          ("description", .str "Progettazione e distribuzione di applicazioni scalabili su AWS, Docker e Kubernetes.")]),
        ("systemDesign", .obj [
          ("title", .str "Architettura dei Sistemi"),
          ("description", .str "Creazione di sistemi efficienti e manutenibili con microservizi e architetture distribuite.")])]),
      ("stats", .obj [
        ("projects", .str "Progetti Completati"),
        ("experience", .str "Anni di Esperienza"),
        ("technologies", .str "Tecnologie Utilizzate"),
        ("clients", .str "Clienti Soddisfatti")])]),
    ("about", .obj [
      ("title", .str "Chi Sono"),
      ("subtitle", .str "Ingegnere Software Full-Stack con passione per l\x27innovazione"),
      ("intro", .str "Sono un ingegnere software full-stack appassionato con esperienza nella creazione di applicazioni scalabili e ad alte prestazioni. Il mio percorso nello sviluppo software è guidato dalla curiosità e dal desiderio di risolvere problemi complessi attraverso codice elegante."),
      ("background", .obj [
        ("title", .str "Background"),
        ("content", .str "Con anni di esperienza nello sviluppo software, ho lavorato su vari progetti che spaziano dalle architetture di microservizi alle moderne applicazioni web. Credo nella scrittura di codice pulito e manutenibile e nel seguire le migliori pratiche del settore.")]),
      ("skills", .obj [
        ("title", .str "Competenze Tecniche"),
        ("backend", .str "Sviluppo Backend"),
        ("frontend", .str "Sviluppo Frontend"),
        ("cloud", .str "Cloud & DevOps"),
        ("database", .str "Gestione Database")]),
      ("approach", .obj [
        ("title", .str "Il Mio Approccio"),
        ("content", .str "Credo nell\x27apprendimento continuo e nel rimanere aggiornato con le ultime tecnologie. Il mio approccio combina eccellenza tecnica con design centrato sull\x27utente per creare soluzioni che non solo funzionano bene, ma forniscono anche esperienze utente eccezionali.")])]),
    ("projects", .obj [
      ("title", .str "I Miei Progetti"),
      ("subtitle", .str "Una raccolta di applicazioni e soluzioni che ho costruito utilizzando tecnologie moderne"),
      ("featured", .str "Progetti in Evidenza"),
      ("allProjects", .str "Tutti i Progetti"),
      ("viewDemo", .str "Vedi Demo"),
      ("viewCode", .str "Vedi Codice"),
      ("techStack", .str "Stack Tecnologico"),
      ("comingSoon", .str "Prossimamente")]),
    ("blog", .obj [
      ("title", .str "Ultimi Articoli"),
      ("subtitle", .str "Riflessioni sullo sviluppo software, tecnologia e best practices"),
      ("readMore", .str "Leggi di Più"),
      ("readTime", .str "min di lettura"),
      ("publishedOn", .str "Pubblicato il"),
      ("tags", .str "Tag"),
      ("backToBlog", .str "Torna al Blog"),
      ("noArticles", .str "Nessun articolo trovato."),
      ("searchPlaceholder", .str "Cerca articoli...")]),
    ("contact", .obj [
      ("title", .str "Contattami"),
      ("subtitle", .str "Parliamo del tuo progetto o semplicemente salutaci"),
      ("form", .obj [
        ("name", .str "Nome Completo"),
        ("email", .str "Indirizzo Email"),
        ("subject", .str "Oggetto"),
        ("message", .str "Messaggio"),
        ("send", .str "Invia Messaggio"),
        ("sending", .str "Invio in corso..."),
        ("placeholder", .obj [
          ("name", .str "Il tuo nome completo"),
          ("email", .str "tua@email.com"),
          ("subject", .str "Discussione progetto"),
          ("message", .str "Parlami del tuo progetto...")])]),
      ("info", .obj [
        ("title", .str "Informazioni di Contatto"),
        ("email", .str "Email"),
        ("response", .str "Rispondo tipicamente entro 24 ore"),
        ("social", .str "Social Media"),
        ("connect", .str "Connettiamoci sui network professionali")])]),
    ("footer", .obj [
      ("description", .str "Ingegnere Software Full-Stack specializzato in soluzioni enterprise con React, TypeScript, Spring Boot e architetture cloud-native. Appassionato di codice pulito, progettazione di sistemi e creazione di esperienze utente eccezionali attraverso applicazioni scalabili e manutenibili."),
      ("quickLinks", .str "Link Rapidi"),
      ("contact", .str "Contatti"),
      ("copyright", .str "© \x7b\x7byear\x7d\x7d Serhat Soysal. Tutti i diritti riservati."),
      ("builtWith", .str "Costruito con React & Tailwind CSS")]),
    ("common", .obj [
      ("loading", .str "Caricamento..."),
      ("error", .str "Qualcosa è andato storto"),
      ("notFound", .str "Pagina non trovata"),
      ("backHome", .str "Torna alla Home"),
      ("learnMore", .str "Scopri di Più"),
      ("viewAll", .str "Vedi Tutto"),
      ("close", .str "Chiudi"),
      ("open", .str "Apri"),
      ("toggleTheme", .str "Cambia tema"),
      ("darkMode", .str "Modalità Scura"),
      ("lightMode", .str "Modalità Chiara")])]

/-- The bundled `translations` object: locale code to catalog. -/
def translations : List (String × Tr) := [
  ("en", enCatalog),
  ("tr", trCatalog),
  ("ar", arCatalog),
  ("it", itCatalog)]

/-- The translation function `t(key, params = {})` of
`src/src/contexts/LanguageContext.js`: traverse the active locale's
catalog along the dotted key, fall back to the English catalog when the
result is falsy, fall back to the key itself when that is falsy too, and
interpolate double-brace placeholders when the result is a string and
`params` is non-empty. -/
def t (currentLanguage : String) (key : String)
    (params : List (String × String)) : Tr :=
  let keys := jsSplitDot key
  let translation := lookupPath (assocLookup currentLanguage translations) keys
  let translation :=
    if jsFalsy translation then
      lookupPath (assocLookup "en" translations) keys
    else translation
  if jsFalsy translation then Tr.str key
  else
    match translation with
    | some (Tr.str s) =>
      if params.isEmpty then Tr.str s else Tr.str (interpolate params s)
    | some v => v
    | none => Tr.str key

/-- Display metadata of one supported language (`src/src/hooks/useLanguage.js`). -/
structure LangInfo where
  code : String
  name : String
  flag : String

/-- The `SUPPORTED_LANGUAGES` registry of `src/src/hooks/useLanguage.js`. -/
def SUPPORTED_LANGUAGES : List (String × LangInfo) := [
  ("en", { code := "en", name := "English", flag := "🇺🇸" }),
  ("tr", { code := "tr", name := "Türkçe", flag := "🇹🇷" }),
  ("ar", { code := "ar", name := "العربية", flag := "🇸🇦" }),
  ("it", { code := "it", name := "Italiano", flag := "🇮🇹" })]

/-- Constant `DEFAULT_LANGUAGE` of `src/src/hooks/useLanguage.js`. -/
def DEFAULT_LANGUAGE : String := "en"

/-- Constant `STORAGE_KEY` of `src/src/hooks/useLanguage.js`. -/
def STORAGE_KEY : String := "preferred-language"

/-- Truthiness of `SUPPORTED_LANGUAGES[code]`: the code is registered. -/
def isSupported (code : String) : Bool :=
  (assocLookup code SUPPORTED_LANGUAGES).isSome

/-- Primary subtag `navigator.language.split('-')[0]` of the
browser-reported language. -/
def browserPrimary (navigatorLanguage : String) : String :=
  (jsSplit '-' navigatorLanguage).headD ""

/-- The `useState` initializer of `useLanguage`: adopt a truthy, registered
persisted code; otherwise the registered primary subtag of the browser
language; otherwise `DEFAULT_LANGUAGE`. -/
def initialLanguage (savedLanguage : Option String)
    (navigatorLanguage : String) : String :=
  match savedLanguage with
  | some s =>
    if s ≠ "" ∧ isSupported s then s
    else
      let browserLanguage := browserPrimary navigatorLanguage
      if isSupported browserLanguage then browserLanguage else DEFAULT_LANGUAGE
  | none =>
    let browserLanguage := browserPrimary navigatorLanguage
    if isSupported browserLanguage then browserLanguage else DEFAULT_LANGUAGE

/-- Operation `switchLanguage(languageCode)`: update the active code only
when the candidate is registered, otherwise leave the state unchanged. -/
def switchLanguage (currentLanguage : String) (languageCode : String) : String :=
  if isSupported languageCode then languageCode else currentLanguage

/-- The host document's attributes written by the `useEffect` of
`useLanguage`. -/
structure DocumentState where
  lang : String
  dir : String

/-- Write `localStorage.setItem k v` over a storage modelled as a
key-value map. -/
def setStorage (store : String → Option String) (k v : String) :
    String → Option String :=
  fun q => if q = k then some v else store q

/-- The `useEffect` body of `useLanguage`, run after every change of
`currentLanguage`: persist the code under `STORAGE_KEY`, set
`document.documentElement.lang`, and set `dir` to `rtl` for `ar` and to
`ltr` otherwise. -/
def applyLanguageEffects (code : String) (store : String → Option String)
    (_doc : DocumentState) : (String → Option String) × DocumentState :=
  (setStorage store STORAGE_KEY code,
   { lang := code, dir := if code = "ar" then "rtl" else "ltr" })

/-- A sequence of `switchLanguage` calls starting from an initial active
code. -/
def runSwitches (initial : String) (codes : List String) : String :=
  codes.foldl switchLanguage initial

/-- Depth-bounded check that a value contains no falsy leaf — no
empty-string leaf and no zero number (so every value reachable from it is
truthy). -/
def noEmptyStrD : Nat → Tr → Bool
  | 0, _ => false
  | _ + 1, Tr.str s => s != ""
  | d + 1, Tr.obj kvs => kvs.all (fun p => noEmptyStrD d p.2)
  | _ + 1, Tr.num n => n != 0
  | _ + 1, Tr.hostVal _ => true

/-- Interpolation scan written from the amended specification: a matched
placeholder is replaced by `params[name]` exactly when `name` is bound in
`params` to a non-empty value; a placeholder whose name is unbound, or
bound to the empty string, is kept literally. -/
def specGo (params : List (String × String)) : Nat → List Char → List Char
  | 0, cs => cs
  | _ + 1, [] => []
  | fuel + 1, c :: rest =>
    match tryPlaceholder (c :: rest) with
    | some (w, r) =>
      (match assocLookup (String.mk w) params with
       | some v => if v = "" then placeholderLit w else v.data
       | none => placeholderLit w)
        ++ specGo params fuel r
    | none => c :: specGo params fuel rest

/-- Amended-specification interpolation over a whole string. -/
def specInterpolate (params : List (String × String)) (s : String) : String :=
  String.mk (specGo params s.data.length s.data)

/-- The resolution part of `t`: the traversal of the active locale's
catalog followed by the falsiness-guarded traversal of the English
catalog.  Definitionally the first half of `t`. -/
def resolveCandidate (lang key : String) : Option Tr :=
  let keys := jsSplitDot key
  let translation := lookupPath (assocLookup lang translations) keys
  if jsFalsy translation then lookupPath (assocLookup "en" translations) keys
  else translation

/-- The tail of `t` after resolution: final fallback to the key and
parameter interpolation.  Definitionally the second half of `t`. -/
def finalize (key : String) (params : List (String × String))
    (translation : Option Tr) : Tr :=
  if jsFalsy translation then Tr.str key
  else
    match translation with
    | some (Tr.str s) =>
      if params.isEmpty then Tr.str s else Tr.str (interpolate params s)
    | some v => v
    | none => Tr.str key

/-- Property names of `Object.prototype` (ECMA-262), found by bracket
access on every plain object after its own keys. -/
def objProtoKeys : List String := ["constructor", "hasOwnProperty",
  "isPrototypeOf", "propertyIsEnumerable", "toLocaleString", "toString",
  "valueOf", "__defineGetter__", "__defineSetter__", "__lookupGetter__",
  "__lookupSetter__", "__proto__"]

/-- Method names of `String.prototype` (ECMA-262 through ES2024,
including Annex B), found by bracket access on a boxed string primitive. -/
def stringProtoKeys : List String := ["at", "charAt", "charCodeAt",
  "codePointAt", "concat", "endsWith", "includes", "indexOf",
  "isWellFormed", "lastIndexOf", "localeCompare", "match", "matchAll",
  "normalize", "padEnd", "padStart", "repeat", "replace", "replaceAll",
  "search", "slice", "split", "startsWith", "substr", "substring",
  "toLocaleLowerCase", "toLocaleUpperCase", "toLowerCase", "toString",
  "toUpperCase", "toWellFormed", "trim", "trimEnd", "trimStart",
  "valueOf", "anchor", "big", "blink", "bold", "fixed", "fontcolor",
  "fontsize", "italics", "link", "small", "strike", "sub", "sup"]

/-- Method names of `Number.prototype` (ECMA-262), found by bracket
access on a boxed number primitive. -/
def numProtoKeys : List String := ["toString", "toLocaleString", "valueOf",
  "toFixed", "toExponential", "toPrecision"]

/-- Arities (the `length` property, ECMA-262) of the host functions the
refined model tabulates; the `length` of untabulated host values is left
outside the modelled fragment. -/
def hostArities : List (String × Nat) := [("trim", 0)]

/-- UTF-16 code-unit count of a character list (astral code points take
two units), matching the JavaScript `length` of a string. -/
def utf16Len : List Char → Nat
  | [] => 0
  | c :: cs => (if c.toNat ≥ 65536 then 2 else 1) + utf16Len cs

/-- JavaScript `s.length`: the UTF-16 code-unit count. -/
def jsStrLength (s : String) : Nat := utf16Len s.data

/-- All characters are ASCII digits. -/
def isDigits : List Char → Bool
  | [] => true
  | c :: cs => c.isDigit && isDigits cs

/-- Numeric value of a digit list (most significant first). -/
def digitsVal : List Char → Nat → Nat
  | [], acc => acc
  | c :: cs, acc => digitsVal cs (acc * 10 + (c.toNat - 48))

/-- Canonical numeric property key (no sign, no leading zero except for
the key `0` itself), the only string keys that index into a boxed
string. -/
def isCanonicalIndexStr (k : String) : Bool :=
  match k.data with
  | [] => false
  | c :: cs => c.isDigit && isDigits cs && (cs.isEmpty || c != '0')

/-- Character of a list at a UTF-16 code-unit index: `some (some c)` for
an in-range basic-plane character, `some none` past the end (the access
is `undefined`), `none` when an astral character is encountered first
(lone-surrogate slicing is outside the modelled fragment). -/
def jsCharAtUnits : List Char → Nat → Option (Option String)
  | [], _ => some none
  | c :: cs, i =>
    if c.toNat ≥ 65536 then none
    else if i = 0 then some (some (String.mk [c]))
    else jsCharAtUnits cs (i - 1)

/-- Refined ECMAScript property access `v[k]`.  `some (some w)` and
`some none` mean the program definitely yields `w` / `undefined`; `none`
means the access leaves the modelled fragment.  Objects expose own keys
then inherited `Object.prototype` properties; boxed strings expose
`length`, canonical in-range indices and inherited methods; boxed
numbers expose inherited methods; host values expose only the tabulated
arities (their remaining properties, some of which are poison-pill
accessors, are outside the fragment). -/
def getPropJs (v : Tr) (k : String) : Option (Option Tr) :=
  match v with
  | Tr.obj kvs =>
    match assocLookup k kvs with
    | some w => some (some w)
    | none =>
      if objProtoKeys.contains k then some (some (Tr.hostVal k)) else some none
  | Tr.str s =>
    if k = "length" then some (some (Tr.num (jsStrLength s)))
    else if isCanonicalIndexStr k then
      match jsCharAtUnits s.data (digitsVal k.data 0) with
      | some (some c) => some (some (Tr.str c))
      | some none => some none
      | none => none
    else if stringProtoKeys.contains k || objProtoKeys.contains k then
      some (some (Tr.hostVal k))
    else some none
  | Tr.num _ =>
    if numProtoKeys.contains k || objProtoKeys.contains k then
      some (some (Tr.hostVal k))
    else some none
  | Tr.hostVal name =>
    if k = "length" then
      match assocLookup name hostArities with
      | some a => some (some (Tr.num a))
      | none => none
    else none

/-- Refined optional chaining `translation?.[k]`: `undefined` propagates,
a fragment exit propagates. -/
def optChainJs (o : Option (Option Tr)) (k : String) : Option (Option Tr) :=
  match o with
  | none => none
  | some none => some none
  | some (some v) => getPropJs v k

/-- Refined traversal loop of the resolver. -/
def lookupPathJs (o : Option (Option Tr)) (segs : List String) :
    Option (Option Tr) :=
  segs.foldl optChainJs o

/-- Refined truthiness of `SUPPORTED_LANGUAGES[code]` in the program: own
registry entries are truthy objects, and inherited `Object.prototype`
properties are also truthy; everything else is `undefined`. -/
def registryGuard (code : String) : Bool :=
  (assocLookup code SUPPORTED_LANGUAGES).isSome || objProtoKeys.contains code

/-- Refined `switchLanguage(languageCode)`: the guard is the truthiness
of `SUPPORTED_LANGUAGES[languageCode]`, including inherited prototype
properties. -/
def switchLanguageJs (currentLanguage : String) (languageCode : String) :
    String :=
  if registryGuard languageCode then languageCode else currentLanguage

/-- Refined `useState` initializer of `useLanguage`: both validity checks
are truthiness of `SUPPORTED_LANGUAGES[...]`, including inherited
prototype properties. -/
def initialLanguageJs (savedLanguage : Option String)
    (navigatorLanguage : String) : String :=
  match savedLanguage with
  | some s =>
    if s ≠ "" ∧ registryGuard s then s
    else
      let browserLanguage := browserPrimary navigatorLanguage
      if registryGuard browserLanguage then browserLanguage
      else DEFAULT_LANGUAGE
  | none =>
    let browserLanguage := browserPrimary navigatorLanguage
    if registryGuard browserLanguage then browserLanguage
    else DEFAULT_LANGUAGE

/-- A sequence of refined `switchLanguage` calls. -/
def runSwitchesJs (initial : String) (codes : List String) : String :=
  codes.foldl switchLanguageJs initial

theorem jsFalsy_none : jsFalsy none = true := rfl

theorem jsFalsy_str (s : String) : jsFalsy (some (Tr.str s)) = (s == "") := rfl

theorem jsFalsy_obj (kvs : List (String × Tr)) :
    jsFalsy (some (Tr.obj kvs)) = false := rfl

theorem lookupPath_none (segs : List String) : lookupPath none segs = none := by
  induction segs with
  | nil => rfl
  | cons s rest ih => exact ih

theorem lookupPath_cons (root : Tr) (seg : String) (rest : List String) :
    lookupPath (some root) (seg :: rest) = lookupPath (getProp root seg) rest := rfl

theorem assocLookup_mem {A : Type} (k : String) (l : List (String × A)) (v : A)
    (h : assocLookup k l = some v) : ∃ k', (k', v) ∈ l := by
  induction l with
  | nil => cases h
  | cons p rest ih =>
    obtain ⟨k', v'⟩ := p
    simp only [assocLookup] at h
    split at h
    · exact ⟨k', by cases h; exact List.mem_cons_self _ _⟩
    · obtain ⟨k'', hm⟩ := ih h
      exact ⟨k'', List.mem_cons_of_mem _ hm⟩

theorem noEmptyStrD_getProp (d : Nat) (root v : Tr) (k : String)
    (hr : noEmptyStrD (d + 1) root = true) (h : getProp root k = some v) :
    noEmptyStrD d v = true := by
  cases root with
  | str s => cases h
  | num n => cases h
  | hostVal nm => cases h
  | obj kvs =>
    simp only [noEmptyStrD, List.all_eq_true] at hr
    obtain ⟨k', hm⟩ := assocLookup_mem k kvs v h
    exact hr ⟨k', v⟩ hm

theorem noEmptyStrD_lookupPath (segs : List String) :
    ∀ (d : Nat) (root v : Tr), noEmptyStrD d root = true →
      lookupPath (some root) segs = some v → ∃ d', noEmptyStrD d' v = true := by
  induction segs with
  | nil =>
    intro d root v hr h
    exact ⟨d, by cases h; exact hr⟩
  | cons seg rest ih =>
    intro d root v hr h
    rw [lookupPath_cons] at h
    cases hg : getProp root seg with
    | none => rw [hg, lookupPath_none] at h; cases h
    | some w =>
      cases d with
      | zero => cases root <;> simp [noEmptyStrD] at hr
      | succ d =>
        rw [hg] at h
        exact ih d w v (noEmptyStrD_getProp d root w seg hr hg) h

theorem noEmptyStrD_falsy (d : Nat) (v : Tr) (h : noEmptyStrD d v = true) :
    jsFalsy (some v) = false := by
  cases d with
  | zero => simp [noEmptyStrD] at h
  | succ d =>
    cases v with
    | str s => simpa [noEmptyStrD, jsFalsy] using h
    | obj kvs => rfl
    | num n => simpa [noEmptyStrD, jsFalsy] using h
    | hostVal nm => rfl

theorem catalogs_noEmpty (lang : String) (root : Tr)
    (h : assocLookup lang translations = some root) : noEmptyStrD 8 root = true := by
  simp only [translations, assocLookup] at h
  split at h
  · cases h; decide
  · split at h
    · cases h; decide
    · split at h
      · cases h; decide
      · split at h
        · cases h; decide
        · cases h

theorem jsFalsy_resolved (lang key : String) (v : Tr)
    (h : lookupPath (assocLookup lang translations) (jsSplitDot key) = some v) :
    jsFalsy (some v) = false := by
  cases hc : assocLookup lang translations with
  | none => rw [hc, lookupPath_none] at h; cases h
  | some root =>
    rw [hc] at h
    obtain ⟨d', hd⟩ := noEmptyStrD_lookupPath (jsSplitDot key) 8 root v
      (catalogs_noEmpty lang root hc) h
    exact noEmptyStrD_falsy d' v hd

theorem t_decomp (lang key : String) (params : List (String × String)) :
    t lang key params = finalize key params (resolveCandidate lang key) := rfl

theorem resolveCandidate_of_active (lang key : String) (v : Tr)
    (h : lookupPath (assocLookup lang translations) (jsSplitDot key) = some v) :
    resolveCandidate lang key = some v := by
  have hf := jsFalsy_resolved lang key v h
  simp only [resolveCandidate, h, hf, Bool.false_eq_true, if_false]

theorem resolveCandidate_of_absent (lang key : String)
    (h : lookupPath (assocLookup lang translations) (jsSplitDot key) = none) :
    resolveCandidate lang key =
      lookupPath (assocLookup "en" translations) (jsSplitDot key) := by
  simp only [resolveCandidate, h, jsFalsy_none, if_true]

theorem finalize_str (key : String) (params : List (String × String)) (s : String)
    (hs : s ≠ "") :
    finalize key params (some (Tr.str s)) =
      (if params.isEmpty then Tr.str s else Tr.str (interpolate params s)) := by
  have hf : (s == "") = false := by simpa using hs
  simp only [finalize, jsFalsy_str, hf, Bool.false_eq_true, if_false]

theorem finalize_obj (key : String) (params : List (String × String))
    (kvs : List (String × Tr)) :
    finalize key params (some (Tr.obj kvs)) = Tr.obj kvs := rfl

theorem resolved_str_ne_empty (lang key : String) (s : String)
    (h : lookupPath (assocLookup lang translations) (jsSplitDot key) = some (Tr.str s)) :
    s ≠ "" := by
  have hf := jsFalsy_resolved lang key (Tr.str s) h
  rw [jsFalsy_str] at hf
  simpa using hf

theorem replaceGo_eq_specGo (params : List (String × String)) :
    ∀ (fuel : Nat) (cs : List Char), replaceGo params fuel cs = specGo params fuel cs := by
  intro fuel
  induction fuel with
  | zero => intro cs; rfl
  | succ fuel ih =>
    intro cs
    cases cs with
    | nil => rfl
    | cons c rest =>
      simp only [replaceGo, specGo]
      cases htp : tryPlaceholder (c :: rest) with
      | none => simp only [ih]
      | some pr =>
        obtain ⟨w, r⟩ := pr
        simp only [ih]
        congr 1
        cases ha : assocLookup (String.mk w) params with
        | none => rfl
        | some v =>
          simp only [jsOrStr]
          split <;> rfl

theorem interpolate_eq_specInterpolate (params : List (String × String)) (s : String) :
    interpolate params s = specInterpolate params s := by
  simp only [interpolate, specInterpolate, replaceGo_eq_specGo]

/-- C3 counterexample: the name `year` exists in `params` but is bound to
the empty string; JavaScript `||` treats the empty string as falsy, so the
placeholder is left literally in the output instead of being replaced by
`params[year]` as the claim requires. -/
theorem interpolation_empty_param_cex :
    t "en" "footer.copyright" [("year", "")] =
      Tr.str "© \x7b\x7byear\x7d\x7d Serhat Soysal. All rights reserved." ∧
    ("© \x7b\x7byear\x7d\x7d Serhat Soysal. All rights reserved." : String) ≠
      "©  Serhat Soysal. All rights reserved." :=
  ⟨rfl, by decide⟩

/-- C3 amended: interpolation replaces each placeholder by `params[name]`
exactly when `name` is bound in `params` to a non-empty value; a
placeholder whose name is unbound, or bound to the empty string, stays
literal (`specInterpolate` spells out this amended semantics); and empty
`params` skips interpolation entirely, returning the resolved string
unchanged. -/
theorem interpolation_amended :
    (∀ (params : List (String × String)) (s : String),
      interpolate params s = specInterpolate params s) ∧
    (∀ (lang key s : String),
      lookupPath (assocLookup lang translations) (jsSplitDot key) =
        some (Tr.str s) →
      t lang key [] = Tr.str s) ∧
    (∀ (lang key s : String) (params : List (String × String)),
      lookupPath (assocLookup lang translations) (jsSplitDot key) =
        some (Tr.str s) →
      params ≠ [] →
      t lang key params = Tr.str (specInterpolate params s)) := by
  refine ⟨interpolate_eq_specInterpolate, ?_, ?_⟩
  · intro lang key s h
    rw [t_decomp, resolveCandidate_of_active lang key _ h,
      finalize_str key [] s (resolved_str_ne_empty lang key s h)]
    rfl
  · intro lang key s params h hp
    rw [t_decomp, resolveCandidate_of_active lang key _ h,
      finalize_str key params s (resolved_str_ne_empty lang key s h),
      ← interpolate_eq_specInterpolate]
    have hemp : params.isEmpty = false := by
      cases params with
      | nil => exact absurd rfl hp
      | cons p ps => rfl
    rw [hemp]
    simp

/-- Witness for C3 amended: `footer.copyright` with a non-empty `year`
parameter interpolates the placeholder. -/
theorem interpolation_amended_witness :
    t "en" "footer.copyright" [("year", "2024")] =
      Tr.str "© 2024 Serhat Soysal. All rights reserved." :=
  (interpolation_amended.2.2 "en" "footer.copyright"
    "© \x7b\x7byear\x7d\x7d Serhat Soysal. All rights reserved."
    [("year", "2024")] rfl (by simp)).trans rfl

/-- C7: a key path resolving to a non-string (object) value — directly in
the active locale's catalog or through the English fallback — is returned
unmodified with no interpolation attempted, for every `params`. -/
theorem translate_object_passthrough (lang key : String)
    (params : List (String × String)) (kvs : List (String × Tr)) :
    (lookupPath (assocLookup lang translations) (jsSplitDot key) =
        some (Tr.obj kvs) →
      t lang key params = Tr.obj kvs) ∧
    (lookupPath (assocLookup lang translations) (jsSplitDot key) = none →
      lookupPath (assocLookup "en" translations) (jsSplitDot key) =
        some (Tr.obj kvs) →
      t lang key params = Tr.obj kvs) := by
  constructor
  · intro h
    rw [t_decomp, resolveCandidate_of_active lang key _ h]
    exact finalize_obj _ _ _
  · intro h1 h2
    rw [t_decomp, resolveCandidate_of_absent lang key h1, h2]
    exact finalize_obj _ _ _

/-- Witness for C7: the key `nav` resolves to the whole navigation object
and is returned as-is even though `params` is non-empty. -/
theorem translate_object_passthrough_witness :
    t "en" "nav" [("x", "1")] = Tr.obj [("home", Tr.str "Home"),
      ("about", Tr.str "About"), ("projects", Tr.str "Projects"),
      ("blog", Tr.str "Blog"), ("contact", Tr.str "Contact")] :=
  (translate_object_passthrough "en" "nav" [("x", "1")]
    [("home", Tr.str "Home"), ("about", Tr.str "About"),
     ("projects", Tr.str "Projects"), ("blog", Tr.str "Blog"),
     ("contact", Tr.str "Contact")]).1 rfl

/-- C8: applying the locale side effects for a code persists the code to
storage under the fixed key `preferred-language`, sets the document's
language attribute to the code, and sets the reading direction to `rtl`
if and only if the code is `ar`, and to `ltr` otherwise. -/
theorem language_effects_spec (code : String) (store : String → Option String)
    (doc : DocumentState) :
    (applyLanguageEffects code store doc).1 STORAGE_KEY = some code ∧
    (applyLanguageEffects code store doc).2.lang = code ∧
    ((applyLanguageEffects code store doc).2.dir = "rtl" ↔ code = "ar") ∧
    (code ≠ "ar" → (applyLanguageEffects code store doc).2.dir = "ltr") := by
  refine ⟨?_, rfl, ?_, ?_⟩
  · simp [applyLanguageEffects, setStorage]
  · constructor
    · intro h
      by_cases hc : code = "ar"
      · exact hc
      · simp [applyLanguageEffects, hc] at h
    · intro h
      simp [applyLanguageEffects, h]
  · intro h
    simp [applyLanguageEffects, h]

/-- Witness for C8: switching to `tr` yields direction `ltr` and switching
to `ar` yields direction `rtl`. -/
theorem language_effects_spec_witness :
    (applyLanguageEffects "tr" (fun _ => none)
      { lang := "en", dir := "ltr" }).2.dir = "ltr" ∧
    (applyLanguageEffects "ar" (fun _ => none)
      { lang := "en", dir := "ltr" }).2.dir = "rtl" :=
  ⟨(language_effects_spec "tr" (fun _ => none)
      { lang := "en", dir := "ltr" }).2.2.2 (by decide),
   (language_effects_spec "ar" (fun _ => none)
      { lang := "en", dir := "ltr" }).2.2.1.mpr rfl⟩

/-- C10: round-trip — persisting a registered code `c` through the locale
side effects and then performing a fresh initialization read of the
storage yields active code `c`. -/
theorem persist_reload_roundtrip (code : String) (store : String → Option String)
    (doc : DocumentState) (nav : String) (h : isSupported code = true) :
    initialLanguage ((applyLanguageEffects code store doc).1 STORAGE_KEY) nav
      = code := by
  have hs : (applyLanguageEffects code store doc).1 STORAGE_KEY = some code := by
    simp [applyLanguageEffects, setStorage]
  rw [hs]
  have hne : code ≠ "" := by
    intro he
    rw [he] at h
    exact absurd h (by decide)
  simp [initialLanguage, hne, h]

/-- Witness for C10: persisting `ar` and re-initializing with browser
language `en-US` restores `ar`. -/
theorem persist_reload_roundtrip_witness :
    initialLanguage ((applyLanguageEffects "ar" (fun _ => none)
      { lang := "en", dir := "ltr" }).1 STORAGE_KEY) "en-US" = "ar" :=
  persist_reload_roundtrip "ar" (fun _ => none)
    { lang := "en", dir := "ltr" } "en-US" (by decide)


theorem lookupPathJs_cons (root : Tr) (seg : String) (rest : List String) :
    lookupPathJs (some (some root)) (seg :: rest) =
      lookupPathJs (getPropJs root seg) rest := rfl


/-- C4: the guard of `switchLanguage` is the truthiness of
`SUPPORTED_LANGUAGES[languageCode]`, which is also truthy for inherited
`Object.prototype` properties; at the failing input `constructor` the
program adopts a code that is not a key of the registry, instead of the
claimed silent no-op. -/
theorem switch_guard_bug :
    switchLanguageJs "en" "constructor" = "constructor" ∧
    assocLookup "constructor" SUPPORTED_LANGUAGES = none :=
  ⟨rfl, rfl⟩

/-- C5: the persisted-code validity check of the initializer is the same
truthiness test, so a persisted `constructor` (present but not a registry
key) is adopted at initialization instead of falling through to the
browser language or the default. -/
theorem initial_guard_bug :
    initialLanguageJs (some "constructor") "en-US" = "constructor" ∧
    assocLookup "constructor" SUPPORTED_LANGUAGES = none :=
  ⟨rfl, rfl⟩

/-- C9: a reachable state violating the registry invariant — after a
fresh initialization (no persisted value, browser `en-US`) followed by
`switchLanguage("constructor")`, the active code is `constructor`, which
is not a key of the Locale Registry. -/
theorem active_registered_bug :
    runSwitchesJs (initialLanguageJs none "en-US") ["constructor"] =
      "constructor" ∧
    isSupported "constructor" = false :=
  ⟨rfl, rfl⟩

end Website
